import Mathlib

/-!
Shallow embedding of the coroutine runtime of `agents-cpp`
(`include/agents-cpp/coroutine_utils.h`) and of the `ActorAgent` header
(`include/agents-cpp/agents/actor_agent.h`).

`Task<T>` is embedded as an optional coroutine frame (`Option (TaskFrame T)`,
`none` being the null `_coro` handle).  A frame holds the outcome its body
produces when driven (`body : Except Err T`), the promise object
(`result` / `exception` / `continuation` / `on_completed`) and the `done`
flag of the frame.  Since `Task::await_suspend` resumes the awaited frame
synchronously and the final awaiter symmetric-transfers straight back to the
registered continuation, a driven body runs to its final suspend point on the
driving thread; `TaskFrame.resume` embeds that whole run.  Control-transfer
side effects of the final awaiter are recorded as an explicit event trace.

`AsyncGenerator<T>` is embedded likewise as `Option (GenFrame T)`: the
remaining behaviour of the generator body is the list of its suspension
steps (each `co_yield` or the raising of an exception), together with the
promise fields `current` / `exception` and the frame's `done` flag.
-/

/-- C++ exceptions as the runtime observes them: `std::runtime_error`
with its message (thrown by `get_sync` on a null handle), or an opaque
`std::exception_ptr` captured from a computation, identified by a code. -/
inductive Err where
  | runtimeError (msg : String)
  | compErr (code : Nat)
deriving DecidableEq, Repr

/-- Observable control-transfer events of the final awaiter:
invocation of the `on_completed` notifier, a symmetric transfer that
resumes the registered continuation, or a transfer to
`std::noop_coroutine()`.  Handles are identified by numbers. -/
inductive Event where
  | notify (n : Nat)
  | resumeCont (c : Nat)
  | noopTransfer
deriving DecidableEq, Repr

/-- The promise object of `Task<T>::promise_type`: stored `result`,
stored `exception`, the registered `continuation` handle (nullptr by
default) and the `on_completed` callback used by the blocking bridge. -/
structure TaskPromise (T : Type) where
  result : Option T := none
  exception : Option Err := none
  continuation : Option Nat := none
  on_completed : Option Nat := none
deriving DecidableEq, Repr

/-- `promise_type::return_value(value)`: stores the result. -/
def TaskPromise.return_value {T : Type} (p : TaskPromise T) (v : T) : TaskPromise T :=
  { p with result := some v }

/-- `promise_type::unhandled_exception()`: captures the in-flight
exception into the promise instead of letting it escape the frame. -/
def TaskPromise.unhandled_exception {T : Type} (p : TaskPromise T) (e : Err) : TaskPromise T :=
  { p with exception := some e }

/-- Storing a finished body's outcome into the promise: a normal return
goes through `return_value`, a raised exception through
`unhandled_exception`. -/
def TaskPromise.store {T : Type} (p : TaskPromise T) (b : Except Err T) : TaskPromise T :=
  match b with
  | Except.ok v => p.return_value v
  | Except.error e => p.unhandled_exception e

/-- `final_awaiter::await_suspend(h)`: first invokes the `on_completed`
notifier when one is registered, then transfers control to the registered
continuation, or to `std::noop_coroutine()` when none is registered.
Returned as the ordered trace of those control events. -/
def finalAwaiterSuspend {T : Type} (p : TaskPromise T) : List Event :=
  (match p.on_completed with
   | some n => [Event.notify n]
   | none => []) ++
  [match p.continuation with
   | some c => Event.resumeCont c
   | none => Event.noopTransfer]

deriving instance DecidableEq for Except

/-- A live `Task<T>` coroutine frame: the outcome its body produces when
driven, the promise object, and the frame's completion flag
(`initial_suspend` is `suspend_always`, so a fresh frame is not done). -/
structure TaskFrame (T : Type) where
  body : Except Err T
  promise : TaskPromise T
  done : Bool
deriving DecidableEq, Repr

/-- A frame as `Task`'s constructor from `get_return_object` hands it
out: suspended at `initial_suspend`, promise untouched. -/
def freshTask {T : Type} (b : Except Err T) : TaskFrame T :=
  { body := b, promise := {}, done := false }

/-- `_coro.resume()` on a task frame: the body runs to its final suspend
point on the resuming thread, its outcome is stored in the promise
(`return_value` / `unhandled_exception`), the frame completes, and the
final awaiter emits its control-transfer events. -/
def TaskFrame.resume {T : Type} (f : TaskFrame T) : TaskFrame T × List Event :=
  let p := f.promise.store f.body
  ({ f with promise := p, done := true }, finalAwaiterSuspend p)

/-- `Task<T>::await_ready()`: `!_coro || _coro.done()`. -/
def Task.await_ready {T : Type} : Option (TaskFrame T) → Bool
  | none => true
  | some f => f.done

/-- `Task<T>::await_suspend(awaiting)`: registers `awaiting` as the
continuation, then resumes the frame. -/
def TaskFrame.await_suspend {T : Type} (f : TaskFrame T) (awaiting : Nat) :
    TaskFrame T × List Event :=
  ({ f with promise := { f.promise with continuation := some awaiting } }).resume

/-- The consuming read shared by `await_resume` and `get_sync`: rethrow
the stored exception if there is one, otherwise return the stored result
(`std::move(*result)`; the `Option` records whether the slot is engaged
at the read). -/
def TaskPromise.consume {T : Type} (p : TaskPromise T) : Except Err (Option T) :=
  match p.exception with
  | some e => Except.error e
  | none => Except.ok p.result

/-- `Task<T>::await_resume()`: rethrows the stored exception to the
awaiter, otherwise moves out the stored result. -/
def TaskFrame.await_resume {T : Type} (f : TaskFrame T) : Except Err (Option T) :=
  f.promise.consume

/-- `Task<T>::get_sync()`: throws `runtime_error("Invalid Task")` on a
null handle; otherwise registers the condition-variable notifier as
`on_completed`, resumes the frame on the calling thread, waits for the
notifier, and finally rethrows the stored exception or moves out the
stored value.  The id `0` stands for the notifier lambda.  Returns the
frame after the drive together with the consumed outcome. -/
def Task.get_sync {T : Type} : Option (TaskFrame T) → Option (TaskFrame T) × Except Err (Option T)
  | none => (none, Except.error (Err.runtimeError "Invalid Task"))
  | some f =>
    let f1 : TaskFrame T := { f with promise := { f.promise with on_completed := some 0 } }
    let r := f1.resume
    (some r.1, match r.1.promise.exception with
               | some e => Except.error e
               | none => Except.ok r.1.promise.result)

/-- `blockingWait(Task<T>&&)`: delegates to `task.get_sync()`. -/
def blockingWait {T : Type} (t : Option (TaskFrame T)) :
    Option (TaskFrame T) × Except Err (Option T) :=
  Task.get_sync t

/-- One observable step of an `AsyncGenerator<T>` body between two
suspension points: a `co_yield` of a value, or the raising of an
exception. -/
inductive GenStep (T : Type) where
  | yield (v : T)
  | raiseErr (e : Err)
deriving DecidableEq, Repr

/-- A live `AsyncGenerator<T>` coroutine frame: the remaining suspension
steps of its body, the promise fields `current` and `exception`, and the
frame's completion flag. -/
structure GenFrame (T : Type) where
  steps : List (GenStep T)
  current : Option T
  exception : Option Err
  done : Bool
deriving DecidableEq, Repr

/-- A generator frame as handed out by `get_return_object`: suspended at
`initial_suspend`, promise untouched, body still entirely ahead. -/
def freshGen {T : Type} (steps : List (GenStep T)) : GenFrame T :=
  { steps := steps, current := none, exception := none, done := false }

/-- `_coro.resume()` on a generator frame: the body runs to its next
suspension point.  Reaching `co_yield v` stores `v` into `current`
(`yield_value`) and suspends; falling off the body reaches
`final_suspend`, so the frame is done; a raised exception is captured by
`unhandled_exception` and the frame is done at `final_suspend`. -/
def GenFrame.resume {T : Type} (f : GenFrame T) : GenFrame T :=
  match f.steps with
  | [] => { f with done := true }
  | GenStep.yield v :: rest => { f with current := some v, steps := rest }
  | GenStep.raiseErr e :: _ => { f with exception := some e, steps := [], done := true }

/-- The resolution performed by the body of `AsyncGenerator<T>::next()`
when its returned `Task<optional<T>>` is driven, paired with the
generator state it leaves behind: a null or finished handle resolves at
once to `nullopt`; otherwise the frame is resumed, a captured exception
is rethrown into the `next` task, a finished frame resolves to
`nullopt`, and otherwise the task resolves to
`std::move(_coro.promise().current)` — the move leaves the `current`
optional engaged, so the frame's slot is not cleared. -/
def nextG {T : Type} : Option (GenFrame T) → Except Err (Option T) × Option (GenFrame T)
  | none => (Except.ok none, none)
  | some f =>
    if f.done then (Except.ok none, some f)
    else
      let f1 := f.resume
      match f1.exception with
      | some e => (Except.error e, some f1)
      | none =>
        if f1.done then (Except.ok none, some f1)
        else (Except.ok f1.current, some f1)

/-- `AsyncGenerator<T>::next()` itself: hands the consumer a fresh
`Task<optional<T>>` whose body performs the resolution above. -/
def AsyncGenerator.next {T : Type} (g : Option (GenFrame T)) :
    TaskFrame (Option T) × Option (GenFrame T) :=
  (freshTask (nextG g).1, (nextG g).2)

/-- `co_await t` on a task `t`: suspend the awaiter (id `0` here),
`await_suspend` drives `t`, the final awaiter transfers back, and
`await_resume` delivers the outcome. -/
def coAwait {T : Type} (f : TaskFrame T) : Except Err (Option T) :=
  (f.await_suspend 0).1.await_resume

/-- Default constructor `AsyncGenerator()`: null handle. -/
def AsyncGenerator.defaultCtor {T : Type} : Option (GenFrame T) := none

/-- Move construction `AsyncGenerator(AsyncGenerator&& other)`:
`std::exchange(other._coro, {})` — the destination takes the handle and
the moved-from source is left holding the null handle.  Returned as
(destination, source after the move). -/
def AsyncGenerator.moveCtor {T : Type} (g : Option (GenFrame T)) :
    Option (GenFrame T) × Option (GenFrame T) :=
  (g, none)

/-- Termination measure for the drain loop: pending suspension steps of
a live frame, plus one for the final resume that observes the end. -/
def genMeasure {T : Type} : Option (GenFrame T) → Nat
  | none => 0
  | some f => if f.done then 0 else f.steps.length + 1

theorem nextG_some_lt {T : Type} (g : Option (GenFrame T)) (g' : Option (GenFrame T)) (v : T)
    (h : nextG g = (Except.ok (some v), g')) : genMeasure g' < genMeasure g := by
  cases g with
  | none => simp [nextG] at h
  | some f =>
    by_cases hd : f.done
    · simp [nextG, hd] at h
    · cases hs : f.steps with
      | nil =>
        simp [nextG, hd, GenFrame.resume, hs] at h
        rcases h₁ : f.exception with _ | e <;> simp [h₁] at h
      | cons s rest =>
        cases s with
        | yield w =>
          simp [nextG, hd, GenFrame.resume, hs] at h
          rcases h₁ : f.exception with _ | e <;> simp [h₁, hd] at h
          rcases h with ⟨hv, hg⟩
          subst hg
          simp [genMeasure, hd, hs]
        | raiseErr e =>
          simp [nextG, hd, GenFrame.resume, hs] at h

/-- The drain loop of `collectAllFromGenerator`: repeatedly
`co_await generator.next()`, pushing each delivered value, until a pull
delivers `nullopt`; an exception rethrown by a pull propagates out of
the collecting coroutine.  (`co_await` of the fresh `next` task delivers
exactly the resolution `nextG` computes — theorem `coAwait_next`.) -/
def collectFromGen {T : Type} (g : Option (GenFrame T)) : Except Err (List T) :=
  match h : nextG g with
  | (Except.error e, _) => Except.error e
  | (Except.ok none, _) => Except.ok []
  | (Except.ok (some v), g') =>
    match collectFromGen g' with
    | Except.error e => Except.error e
    | Except.ok l => Except.ok (v :: l)
termination_by genMeasure g
decreasing_by exact nextG_some_lt g g' v h

/-- The same loop, instrumented: the ordered list of the values the loop
observes from successive `next()` pulls, the terminating `nullopt`
observation included (the loop breaks at the first `nullopt`, so nothing
follows it). -/
def drainObs {T : Type} (g : Option (GenFrame T)) : List (Option T) :=
  match h : nextG g with
  | (Except.error _, _) => []
  | (Except.ok none, _) => [none]
  | (Except.ok (some v), g') => some v :: drainObs g'
termination_by genMeasure g
decreasing_by exact nextG_some_lt g g' v h

/-- `collectAllFromGenerator(generator)`: the task whose body is the
drain loop. -/
def collectAllFromGenerator {T : Type} (g : Option (GenFrame T)) : TaskFrame (List T) :=
  freshTask (collectFromGen g)

/-- `collectAll(generator)`: `blockingWait(collectAllFromGenerator(...))`. -/
def collectAll {T : Type} (g : Option (GenFrame T)) : Except Err (Option (List T)) :=
  (blockingWait (some (collectAllFromGenerator g))).2

/-- Iterating the generator-state transition of `next()` `k` times. -/
def stepN {T : Type} : Nat → Option (GenFrame T) → Option (GenFrame T)
  | 0, g => g
  | k + 1, g => stepN k (nextG g).2

/-- The frame invariant of a reachable generator: a captured exception
only ever coexists with a finished frame (`unhandled_exception` is
followed by `final_suspend`). -/
def GenFrame.WF {T : Type} (f : GenFrame T) : Prop :=
  f.exception.isSome = true → f.done = true

/-- The invariant on the optional handle. -/
def AsyncGenerator.WF {T : Type} : Option (GenFrame T) → Prop
  | none => True
  | some f => f.WF

theorem nextG_preserves_WF {T : Type} (g : Option (GenFrame T)) (h : AsyncGenerator.WF g) :
    AsyncGenerator.WF (nextG g).2 := by
  cases g with
  | none => simpa [nextG] using h
  | some f =>
    by_cases hd : f.done
    · simpa [nextG, hd] using h
    · cases hs : f.steps with
      | nil =>
        have hex : f.exception = none := by
          rcases h₁ : f.exception with _ | e
          · rfl
          · exact absurd (h (by simp [h₁])) hd
        simp [nextG, hd, GenFrame.resume, hs, hex, AsyncGenerator.WF, GenFrame.WF]
      | cons s rest =>
        have hex : f.exception = none := by
          rcases h₁ : f.exception with _ | e
          · rfl
          · exact absurd (h (by simp [h₁])) hd
        cases s with
        | yield w =>
          simp [nextG, hd, GenFrame.resume, hs, hex, AsyncGenerator.WF, GenFrame.WF]
        | raiseErr e =>
          simp [nextG, hd, GenFrame.resume, hs, hex, AsyncGenerator.WF, GenFrame.WF]

theorem collectFromGen_yields {T : Type} (vs : List T) (cur : Option T) :
    collectFromGen (some ⟨vs.map GenStep.yield, cur, none, false⟩) = Except.ok vs := by
  induction vs generalizing cur with
  | nil => simp [collectFromGen, nextG, GenFrame.resume]
  | cons v rest ih => simp [collectFromGen, nextG, GenFrame.resume, ih]

theorem drainObs_yields {T : Type} (vs : List T) (cur : Option T) :
    drainObs (some ⟨vs.map GenStep.yield, cur, none, false⟩) = vs.map some ++ [none] := by
  induction vs generalizing cur with
  | nil => simp [drainObs, nextG, GenFrame.resume]
  | cons v rest ih => simp [drainObs, nextG, GenFrame.resume, ih]

theorem get_sync_fresh_ok {T : Type} (v : T) :
    Task.get_sync (some (freshTask (Except.ok v))) =
      (some { body := Except.ok v,
              promise := { result := some v, exception := none, continuation := none,
                           on_completed := some 0 },
              done := true },
       Except.ok (some v)) := by
  simp [Task.get_sync, freshTask, TaskFrame.resume, TaskPromise.store,
    TaskPromise.return_value]

theorem get_sync_fresh_err {T : Type} (e : Err) :
    (Task.get_sync (T := T) (some (freshTask (Except.error e)))).2 = Except.error e := by
  simp [Task.get_sync, freshTask, TaskFrame.resume, TaskPromise.store,
    TaskPromise.unhandled_exception]

/-- `co_await generator.next()` delivers exactly the resolution `nextG`
computes: the fresh `next` task is suspended at `initial_suspend`, so
`await_ready` is false, `await_suspend` drives its body, and
`await_resume` hands the awaiter the stored optional or rethrows the
stored exception. -/
theorem coAwait_next {T : Type} (g : Option (GenFrame T)) :
    coAwait (AsyncGenerator.next g).1 =
      match (nextG g).1 with
      | Except.ok o => Except.ok (some o)
      | Except.error e => Except.error e := by
  cases h : (nextG g).1 with
  | ok o =>
    simp [coAwait, AsyncGenerator.next, freshTask, TaskFrame.await_suspend, TaskFrame.resume,
      TaskPromise.store, TaskPromise.return_value, TaskPromise.unhandled_exception,
      TaskFrame.await_resume, TaskPromise.consume, h]
  | error e =>
    simp [coAwait, AsyncGenerator.next, freshTask, TaskFrame.await_suspend, TaskFrame.resume,
      TaskPromise.store, TaskPromise.return_value, TaskPromise.unhandled_exception,
      TaskFrame.await_resume, TaskPromise.consume, h]

/-- C1: for every list of N ≥ 0 values yielded by an `AsyncGenerator`
body that then finishes, `collectAll` (that is, `blockingWait` of
`collectAllFromGenerator`) returns exactly those values in their yield
order, and the drain loop observes exactly one terminal `nullopt` from
`next()`, right after the Nth value. -/
theorem c1_collectAll_order {T : Type} [DecidableEq T] (vs : List T) :
    collectAll (some (freshGen (vs.map GenStep.yield))) = Except.ok (some vs) ∧
    drainObs (some (freshGen (vs.map GenStep.yield))) = vs.map some ++ [none] ∧
    (drainObs (some (freshGen (vs.map GenStep.yield)))).count none = 1 := by
  have hobs : drainObs (some (freshGen (vs.map GenStep.yield))) = vs.map some ++ [none] := by
    simpa [freshGen] using drainObs_yields vs none
  refine ⟨?_, hobs, ?_⟩
  · have hcol : collectFromGen (some (freshGen (vs.map GenStep.yield))) = Except.ok vs := by
      simpa [freshGen] using collectFromGen_yields vs none
    simp [collectAll, blockingWait, collectAllFromGenerator, hcol, get_sync_fresh_ok]
  · have hz : (vs.map some).count (none : Option T) = 0 :=
      List.count_eq_zero.mpr (by simp)
    simp [hobs, List.count_append, hz]

/-- C2: a single `next()` call resolves as specified: a null or already
finished frame resolves immediately to `nullopt` without touching the
frame; otherwise the frame is resumed and the returned task resolves to
the value the body yields next, to `nullopt` when the body finishes
instead, and to the propagated exception when the body raises one. -/
theorem c2_next_resolution {T : Type} (f : GenFrame T) :
    (nextG (T := T) none).1 = Except.ok none ∧
    (f.done = true → nextG (some f) = (Except.ok none, some f)) ∧
    (f.done = false → f.exception = none → ∀ v rest, f.steps = GenStep.yield v :: rest →
      (nextG (some f)).1 = Except.ok (some v)) ∧
    (f.done = false → f.exception = none → f.steps = [] →
      (nextG (some f)).1 = Except.ok none) ∧
    (f.done = false → ∀ e rest, f.steps = GenStep.raiseErr e :: rest →
      (nextG (some f)).1 = Except.error e) := by
  refine ⟨rfl, ?_, ?_, ?_, ?_⟩
  · intro hd
    simp [nextG, hd]
  · intro hd hex v rest hs
    simp [nextG, hd, hex, GenFrame.resume, hs]
  · intro hd hex hs
    simp [nextG, hd, hex, GenFrame.resume, hs]
  · intro hd e rest hs
    simp [nextG, hd, GenFrame.resume, hs]

/-- Witness for C2 at concrete inputs: a finished frame, a yielding
frame, a finishing frame and a raising frame. -/
theorem c2_next_resolution_witness :
    (nextG (some (⟨[], some 9, none, true⟩ : GenFrame Nat)) =
      (Except.ok none, some (⟨[], some 9, none, true⟩ : GenFrame Nat))) ∧
    (nextG (some (freshGen [GenStep.yield (7 : Nat)]))).1 = Except.ok (some 7) ∧
    (nextG (some (freshGen ([] : List (GenStep Nat))))).1 = Except.ok none ∧
    (nextG (some (freshGen [GenStep.raiseErr (T := Nat) (Err.compErr 3)]))).1 =
      Except.error (Err.compErr 3) :=
  ⟨(c2_next_resolution (⟨[], some 9, none, true⟩ : GenFrame Nat)).2.1 rfl,
   (c2_next_resolution (freshGen [GenStep.yield (7 : Nat)])).2.2.1 rfl rfl 7 [] rfl,
   (c2_next_resolution (freshGen ([] : List (GenStep Nat)))).2.2.2.1 rfl rfl rfl,
   (c2_next_resolution (freshGen [GenStep.raiseErr (T := Nat) (Err.compErr 3)])).2.2.2.2
     rfl (Err.compErr 3) [] rfl⟩

theorem nextG_terminal {T : Type} (g g' : Option (GenFrame T)) (r : Except Err (Option T))
    (hwf : AsyncGenerator.WF g) (hstep : nextG g = (r, g'))
    (hobs : r = Except.ok none ∨ ∃ e, r = Except.error e) :
    nextG g' = (Except.ok none, g') := by
  cases g with
  | none =>
    simp [nextG] at hstep
    simp [← hstep.2, nextG]
  | some f =>
    by_cases hd : f.done
    · simp [nextG, hd] at hstep
      simp [← hstep.2, nextG, hd]
    · have hex : f.exception = none := by
        rcases h₁ : f.exception with _ | e
        · rfl
        · exact absurd (hwf (by simp [AsyncGenerator.WF, GenFrame.WF, h₁])) hd
      cases hs : f.steps with
      | nil =>
        simp [nextG, hd, GenFrame.resume, hs, hex] at hstep
        simp [← hstep.2, nextG]
      | cons s rest =>
        cases s with
        | yield w =>
          simp [nextG, hd, GenFrame.resume, hs, hex] at hstep
          rcases hobs with h₂ | ⟨e, h₂⟩ <;> rw [h₂] at hstep <;> simp at hstep
        | raiseErr e =>
          simp [nextG, hd, GenFrame.resume, hs, hex] at hstep
          simp [← hstep.2, nextG]

/-- C4: streams are not restartable.  Once a `next()` resolution has
observed exhaustion (`nullopt`) or an error from a well-formed frame,
every subsequent `next()` call resolves to `nullopt` with the generator
state untouched — the body is never re-entered (its pending steps are
unchanged) and the stored error is never rethrown again. -/
theorem c4_not_restartable {T : Type} (g g' : Option (GenFrame T)) (r : Except Err (Option T))
    (hwf : AsyncGenerator.WF g) (hstep : nextG g = (r, g'))
    (hobs : r = Except.ok none ∨ ∃ e, r = Except.error e) :
    ∀ k : Nat, stepN k g' = g' ∧ (nextG (stepN k g')).1 = Except.ok none := by
  have hterm : nextG g' = (Except.ok none, g') := nextG_terminal g g' r hwf hstep hobs
  intro k
  induction k with
  | zero => exact ⟨rfl, by simp [stepN, hterm]⟩
  | succ n ih =>
    have h₂ : stepN (n + 1) g' = stepN n g' := by
      show stepN n (nextG g').2 = stepN n g'
      rw [hterm]
    rw [h₂]
    exact ih

/-- Witness for C4: a generator that raises on its first resume; after
the error is observed, the next pull resolves to `nullopt` and the frame
is untouched. -/
theorem c4_not_restartable_witness :
    stepN 1 (some (⟨[], none, some (Err.compErr 3), true⟩ : GenFrame Nat)) =
      some (⟨[], none, some (Err.compErr 3), true⟩ : GenFrame Nat) ∧
    (nextG (stepN 1 (some (⟨[], none, some (Err.compErr 3), true⟩ : GenFrame Nat)))).1 =
      Except.ok none :=
  c4_not_restartable (some (freshGen [GenStep.raiseErr (T := Nat) (Err.compErr 3)]))
    (some (⟨[], none, some (Err.compErr 3), true⟩ : GenFrame Nat))
    (Except.error (Err.compErr 3)) (by simp [AsyncGenerator.WF, GenFrame.WF, freshGen])
    (by decide) (Or.inr ⟨Err.compErr 3, rfl⟩) 1

/-- C7 counterexample: the generator body `co_yield 5` is driven through
one `next()`; the consumer receives 5, yet the promise's `current` slot
still holds a value afterwards — `co_return std::move(current)` moves
out of the engaged `optional` and moving from a `std::optional` leaves it
engaged, so the slot is not cleared by consumption. -/
theorem c7_counterexample :
    (nextG (some (freshGen [GenStep.yield (5 : Nat)]))).1 = Except.ok (some 5) ∧
    (nextG (some (freshGen [GenStep.yield (5 : Nat)]))).2 =
      some (⟨[], some 5, none, false⟩ : GenFrame Nat) ∧
    (⟨[], some 5, none, false⟩ : GenFrame Nat).current ≠ none := by
  refine ⟨rfl, rfl, by decide⟩

/-- C7 amended: after a `next()` call delivers a yielded value, the
promise's `current` slot still holds the (moved-from) value; the slot is
never cleared, only overwritten when the next `yield_value` stores the
following value. -/
theorem c7_slot_retained {T : Type} (v : T) (rest : List (GenStep T)) (cur : Option T) :
    nextG (some (⟨GenStep.yield v :: rest, cur, none, false⟩ : GenFrame T)) =
      (Except.ok (some v), some (⟨rest, some v, none, false⟩ : GenFrame T)) := by
  simp [nextG, GenFrame.resume]

/-- C10: `next()` on a default-constructed or moved-from
`AsyncGenerator` (null `_coro` handle) resolves to `nullopt` — the same
safe terminal answer as an exhausted stream — with no error and no state
change. -/
theorem c10_next_null_handle {T : Type} (g : Option (GenFrame T)) :
    nextG (AsyncGenerator.defaultCtor (T := T)) = (Except.ok none, none) ∧
    (AsyncGenerator.moveCtor g).2 = none ∧
    nextG (AsyncGenerator.moveCtor g).2 = (Except.ok none, none) :=
  ⟨rfl, rfl, rfl⟩

/-- Whether a final-awaiter event resumes a continuation. -/
def Event.isResumeCont : Event → Bool
  | Event.resumeCont _ => true
  | _ => false

/-- C3: an exception raised inside a task body is captured into the
promise by `unhandled_exception` instead of propagating across the
suspension boundary (the resume completes normally with the exception stored),
and it is rethrown exactly at consumption: `await_resume` rethrows it to
the awaiter and `get_sync` to the blocking caller; a stored exception is
never silently dropped by the consuming read. -/
theorem c3_exception_capture {T : Type} (f : TaskFrame T) (e : Err)
    (hb : f.body = Except.error e) :
    (f.resume).1.promise.exception = some e ∧
    (f.resume).1.await_resume = Except.error e ∧
    (Task.get_sync (some f)).2 = Except.error e ∧
    (∀ p : TaskPromise T, p.exception = some e → p.consume = Except.error e) := by
  refine ⟨?_, ?_, ?_, ?_⟩
  · simp [TaskFrame.resume, TaskPromise.store, hb, TaskPromise.unhandled_exception]
  · simp [TaskFrame.resume, TaskPromise.store, hb, TaskPromise.unhandled_exception,
      TaskFrame.await_resume, TaskPromise.consume]
  · simp [Task.get_sync, TaskFrame.resume, TaskPromise.store, hb,
      TaskPromise.unhandled_exception]
  · intro p hp
    simp [TaskPromise.consume, hp]

/-- Witness for C3 at a concrete failing body. -/
theorem c3_exception_capture_witness :
    ((freshTask (T := Nat) (Except.error (Err.compErr 7))).resume).1.promise.exception =
      some (Err.compErr 7) ∧
    (Task.get_sync (some (freshTask (T := Nat) (Except.error (Err.compErr 7))))).2 =
      Except.error (Err.compErr 7) :=
  ⟨(c3_exception_capture (freshTask (Except.error (Err.compErr 7))) (Err.compErr 7) rfl).1,
   (c3_exception_capture (freshTask (Except.error (Err.compErr 7))) (Err.compErr 7)
     rfl).2.2.1⟩

/-- C5: when a task frame completes, the promise is fully resolved
(value or exception stored) before the final awaiter runs; the final
awaiter's trace fires the `on_completed` notifier (when registered)
strictly before transferring control to the registered continuation, and
it transfers to a continuation at most once. -/
theorem c5_notifier_before_continuation {T : Type} (f : TaskFrame T) :
    (f.resume).2 = finalAwaiterSuspend (f.resume).1.promise ∧
    ((f.resume).1.promise.result.isSome = true ∨
      (f.resume).1.promise.exception.isSome = true) ∧
    ((f.resume).2.countP (fun ev => ev.isResumeCont)) ≤ 1 ∧
    (∀ n c, f.promise.on_completed = some n → f.promise.continuation = some c →
      (f.resume).2 = [Event.notify n, Event.resumeCont c]) := by
  refine ⟨?_, ?_, ?_, ?_⟩
  · cases hb : f.body <;>
      simp [TaskFrame.resume, TaskPromise.store, hb, TaskPromise.return_value,
        TaskPromise.unhandled_exception]
  · cases hb : f.body <;>
      simp [TaskFrame.resume, TaskPromise.store, hb, TaskPromise.return_value,
        TaskPromise.unhandled_exception]
  · cases hb : f.body <;>
      rcases hn : f.promise.on_completed with _ | n <;>
      rcases hc : f.promise.continuation with _ | c <;>
      simp [TaskFrame.resume, TaskPromise.store, hb, TaskPromise.return_value,
        TaskPromise.unhandled_exception, finalAwaiterSuspend, hn, hc, Event.isResumeCont,
        List.countP_cons]
  · intro n c hn hc
    cases hb : f.body <;>
      simp [TaskFrame.resume, TaskPromise.store, hb, TaskPromise.return_value,
        TaskPromise.unhandled_exception, finalAwaiterSuspend, hn, hc]

/-- Witness for C5: a frame with both a notifier and a continuation
registered emits the notifier event first. -/
theorem c5_notifier_before_continuation_witness :
    ((⟨Except.ok 1, ⟨none, none, some 9, some 5⟩, false⟩ : TaskFrame Nat).resume).2 =
      [Event.notify 5, Event.resumeCont 9] :=
  (c5_notifier_before_continuation
    (⟨Except.ok 1, ⟨none, none, some 9, some 5⟩, false⟩ : TaskFrame Nat)).2.2.2 5 9 rfl rfl

/-- Task frames as execution produces them: a freshly constructed frame,
possibly with a continuation or the blocking-bridge notifier registered
before the first resume, or the frame left behind by resuming such a
frame. -/
inductive TaskFrame.Reachable {T : Type} : TaskFrame T → Prop where
  | init (b : Except Err T) (cont noti : Option Nat) :
      TaskFrame.Reachable ⟨b, ⟨none, none, cont, noti⟩, false⟩
  | resumed (f : TaskFrame T) : TaskFrame.Reachable f → f.done = false →
      TaskFrame.Reachable (f.resume).1

/-- C6: for every reachable live task frame, `await_ready` answers the
`done` flag, is true exactly when the frame is resolved (a result or an
exception is stored), and a true answer means `await_resume` can deliver
the outcome of the body immediately. -/
theorem c6_await_ready {T : Type} (f : TaskFrame T) (hr : f.Reachable) :
    Task.await_ready (some f) = f.done ∧
    (Task.await_ready (some f) = true ↔
      (f.promise.result.isSome = true ∨ f.promise.exception.isSome = true)) ∧
    (Task.await_ready (some f) = true →
      match f.body with
      | Except.ok v => f.await_resume = Except.ok (some v)
      | Except.error e => f.await_resume = Except.error e) := by
  induction hr with
  | init b cont noti =>
    refine ⟨rfl, ?_, ?_⟩
    · simp [Task.await_ready]
    · intro h
      simp [Task.await_ready] at h
  | resumed f hf hdone ih =>
    have hres : f.promise.result = none := by
      rcases h₁ : f.promise.result with _ | v
      · rfl
      · have := (ih.2.1).mpr (Or.inl (by simp [h₁]))
        rw [ih.1, hdone] at this
        exact absurd this (by simp)
    have hexc : f.promise.exception = none := by
      rcases h₁ : f.promise.exception with _ | e
      · rfl
      · have := (ih.2.1).mpr (Or.inr (by simp [h₁]))
        rw [ih.1, hdone] at this
        exact absurd this (by simp)
    cases hb : f.body with
    | ok v =>
      refine ⟨rfl, ?_, ?_⟩
      · simp [Task.await_ready, TaskFrame.resume, TaskPromise.store, hb,
          TaskPromise.return_value]
      · intro h
        simp [TaskFrame.resume, TaskPromise.store, hb, TaskPromise.return_value,
          TaskFrame.await_resume, TaskPromise.consume, hexc]
    | error e =>
      refine ⟨rfl, ?_, ?_⟩
      · simp [Task.await_ready, TaskFrame.resume, TaskPromise.store, hb,
          TaskPromise.unhandled_exception]
      · intro h
        simp [TaskFrame.resume, TaskPromise.store, hb, TaskPromise.unhandled_exception,
          TaskFrame.await_resume, TaskPromise.consume]

/-- Witness for C6: the frame of `co_return 3` after its resume is ready
and immediately readable. -/
theorem c6_await_ready_witness :
    Task.await_ready (some (⟨Except.ok 3, ⟨some 3, none, none, none⟩, true⟩ : TaskFrame Nat)) =
      true ∧
    (⟨Except.ok 3, ⟨some 3, none, none, none⟩, true⟩ : TaskFrame Nat).await_resume =
      Except.ok (some 3) := by
  have h := c6_await_ready (⟨Except.ok 3, ⟨some 3, none, none, none⟩, true⟩ : TaskFrame Nat)
    (TaskFrame.Reachable.resumed ⟨Except.ok 3, ⟨none, none, none, none⟩, false⟩
      (TaskFrame.Reachable.init (Except.ok 3) none none) rfl)
  exact ⟨by rw [h.1], h.2.2 (by rw [h.1])⟩

/-- C8: `get_sync` (the blocking bridge of `blockingWait`) on a task
holding a live fresh frame drives it to completion on the calling thread
and returns the stored value or rethrows the stored error; on a null
handle it raises `runtime_error("Invalid Task")` instead of returning. -/
theorem c8_get_sync {T : Type} (b : Except Err T) :
    Task.get_sync (T := T) none = (none, Except.error (Err.runtimeError "Invalid Task")) ∧
    (Task.get_sync (some (freshTask b))).2 =
      (match b with
       | Except.ok v => Except.ok (some v)
       | Except.error e => Except.error e) ∧
    (Task.get_sync (some (freshTask b))).1.map TaskFrame.done = some true := by
  refine ⟨rfl, ?_, ?_⟩
  · cases b with
    | ok v => simp [get_sync_fresh_ok]
    | error e => simp [get_sync_fresh_err]
  · cases b with
    | ok v => simp [get_sync_fresh_ok]
    | error e =>
      simp [Task.get_sync, freshTask, TaskFrame.resume, TaskPromise.store,
        TaskPromise.unhandled_exception]

/-- The data members of `ActorAgent` driving the worker loop, with the
types the header gives them. -/
structure ActorAgent where
  agent_prompt : String
  run_interval_ms : Int
  stop_flag : Bool

/-- Modelled from the spec: the body of `ActorAgent`'s constructor is
not among the repository's sources (the headers only declare it).  Per
the spec's "`run_interval_ms` (default 100 ms)", the constructor leaves
the in-class initialisers of `actor_agent.h` in force:
`int run_interval_ms_ = 100;` and `std::atomic<bool> stop_flag_{false};`. -/
def ActorAgent.construct (agent_prompt : String) : ActorAgent :=
  { agent_prompt := agent_prompt, run_interval_ms := 100, stop_flag := false }

/-- C9: every newly constructed `ActorAgent` polls at the default
`run_interval_ms_` of 100 milliseconds (and starts with the stop flag
clear). -/
theorem c9_run_interval_default (p : String) :
    (ActorAgent.construct p).run_interval_ms = 100 ∧
    (ActorAgent.construct p).stop_flag = false :=
  ⟨rfl, rfl⟩
